import Mathlib

/-!
Verification of the hypeloop story-generation pipeline.

The definitions below are a shallow embedding of the Python sources under
src/functions/scripts/python/: the schema types (schemas.py), the Leonardo
polling client (leonardo_api.py), the per-scene image/motion controllers
(generate_story.py) and the pipeline tail of generate_story
(story_generator.py).  Network calls, the LLM and the filesystem are
abstracted as explicit stub parameters; loops that the Python code drives
by wall-clock time or unbounded while-loops are embedded with an explicit
fuel parameter, where running out of fuel for every fuel value models
non-termination.
-/

namespace Hypeloop

/-! ## Data model (schemas.py) -/

/-- Character roles, from schemas.py (class Role). -/
inductive Role
  | narrator | child | elder | fae | hero | villain | sage | sidekick
deriving DecidableEq, Repr

/-- Visual styles, from schemas.py (class LeonardoStyles). -/
inductive LeonardoStyles
  | render_3d | acrylic | anime_general | creative | dynamic | fashion
  | game_concept | graphic_design_3d | illustration | none
  | portrait | portrait_cinematic | ray_traced | stock_photo | watercolor
deriving DecidableEq, Repr

/-- A character profile, from schemas.py (class Character). -/
structure Character where
  role : Role
  name : String
  backstory : String
  physical_description : String
  personality : String
deriving DecidableEq, Repr

/-- A keyframe, from schemas.py (class Keyframe). -/
structure Keyframe where
  title : String
  description : String
  characters_in_scene : List String
deriving DecidableEq, Repr

/-- A scene of a keyframe, from schemas.py (class KeyframeScene).
The leonardo_prompt field is optional and defaults to None. -/
structure KeyframeScene where
  character : Character
  dialog : String
  title : String
  description : String
  characters_in_scene : List String
  leonardo_prompt : Option String := Option.none
deriving DecidableEq, Repr

/-- The scene list produced for one keyframe, from schemas.py
(class KeyframesWithDialog). -/
structure KeyframesWithDialog where
  scenes : List KeyframeScene
deriving DecidableEq, Repr

/-! ## Effective image prompt (generate_story.py, process_keyframe line 318)

The Python expression is
  prompt = scene.leonardo_prompt if scene.leonardo_prompt else scene.description
where an Optional[str] is falsy exactly when it is None or the empty string. -/

/-- The prompt handed to image generation for one scene: the optimized
leonardo_prompt when it is present and non-empty, the raw description
otherwise. -/
def scene_image_prompt (s : KeyframeScene) : String :=
  match s.leonardo_prompt with
  | Option.some p => if p = "" then s.description else p
  | Option.none => s.description

/-! ## Image retry controller (generate_story.py, generate_image_for_keyframe)

The controller makes a first attempt with the caller's prompt, then for
retry in range(2, max_retries + 1) retries with the prompt extended by a
fixed quality-boost suffix.  One whole attempt (submit, poll, download) is
abstracted as a stub from the attempt number and the prompt to an optional
result; the Python (None, None, None) return is Option.none. -/

/-- The fixed suffix appended to the prompt on every retry attempt
(generate_story.py line 115). -/
def quality_boost_suffix : String :=
  " Detailed high quality illustration, perfect composition, professional photography, 8k resolution."

/-- A successful image generation result: the saved path, the generation id
and the image id. -/
structure ImageGenResult where
  imagePath : String
  generationId : String
  imageId : String
deriving DecidableEq, Repr

/-- The retry loop of generate_image_for_keyframe: each listed retry number
attempts with the suffixed prompt; the first success wins. -/
def image_retry_loop (attempt : Nat → String → Option ImageGenResult)
    (keyframeDesc : String) : List Nat → Option ImageGenResult
  | [] => Option.none
  | r :: rest =>
    match attempt r (keyframeDesc ++ quality_boost_suffix) with
    | Option.some res => Option.some res
    | Option.none => image_retry_loop attempt keyframeDesc rest

/-- generate_image_for_keyframe of generate_story.py: one attempt with the
original prompt, then retries numbered range(2, maxRetries + 1) with the
suffixed prompt.  Its call site in process_keyframe passes maxRetries = 2. -/
def generate_image_for_keyframe (attempt : Nat → String → Option ImageGenResult)
    (keyframeDesc : String) (maxRetries : Nat) : Option ImageGenResult :=
  match attempt 1 keyframeDesc with
  | Option.some res => Option.some res
  | Option.none => image_retry_loop attempt keyframeDesc (List.range' 2 (maxRetries - 1))

/-- A stub that fails attempts 1 and 2 and succeeds on attempt 3, used to
test the claimed three-attempt policy. -/
def attempt_succeeds_third : Nat → String → Option ImageGenResult :=
  fun k _ => if k = 3 then Option.some ⟨"kf.jpg", "gen-3", "img-3"⟩ else Option.none

/-! ## The Leonardo poller (leonardo_api.py)

poll_generation_status and poll_motion_status are unbounded while-loops:
fetch the status, return the payload on COMPLETE, return None on a non-200
response or on FAILED/DELETED, otherwise sleep 5 seconds and fetch again.
They are embedded over a stream of responses indexed by fetch number, with
an explicit fuel bound on the number of fetches; a result of Option.none at
every fuel models a loop that never returns. -/

/-- The status field of a generation job as observed by the poller. -/
inductive JobStatus
  | pending | complete | failed | deleted | unknown
deriving DecidableEq, Repr

/-- One generated image descriptor from the generation payload. -/
structure GeneratedImage where
  id : String
  url : String
deriving DecidableEq, Repr

/-- The generations_by_pk payload of one status fetch. -/
structure GenerationData where
  status : JobStatus
  generated_images : List GeneratedImage
deriving DecidableEq, Repr

/-- The outcome of one HTTP status fetch: a non-200 transport error, or a
200 response carrying the payload. -/
inductive StatusFetchResult
  | transportError
  | ok (data : GenerationData)

/-- A finished run of poll_generation_status: the returned value (the
payload and the first image id on COMPLETE, None on transport error or
FAILED/DELETED), the number of status fetches performed, and the number of
5-second sleeps between them. -/
structure PollRun where
  result : Option (GenerationData × Option String)
  fetches : Nat
  sleeps : Nat
deriving DecidableEq, Repr

/-- The fixed sleep between two status fetches, in seconds
(time.sleep(5) in leonardo_api.py). -/
def poll_sleep_seconds : Nat := 5

/-- poll_generation_status of leonardo_api.py, unrolled from fetch index i
with the given fuel.  On COMPLETE it returns the payload together with the
id of the first generated image when there is one; FAILED and DELETED and a
transport error return None; every other status sleeps and fetches again. -/
def poll_generation_status_aux (fetch : Nat → StatusFetchResult) (i : Nat) :
    Nat → Option PollRun
  | 0 => Option.none
  | fuel + 1 =>
    match fetch i with
    | StatusFetchResult.transportError => Option.some ⟨Option.none, 1, 0⟩
    | StatusFetchResult.ok d =>
      match d.status with
      | JobStatus.complete =>
        Option.some ⟨Option.some (d, (d.generated_images.head?).map GeneratedImage.id), 1, 0⟩
      | JobStatus.failed => Option.some ⟨Option.none, 1, 0⟩
      | JobStatus.deleted => Option.some ⟨Option.none, 1, 0⟩
      | _ =>
        (poll_generation_status_aux fetch (i + 1) fuel).map
          fun r => ⟨r.result, r.fetches + 1, r.sleeps + 1⟩

/-- poll_generation_status started at the first fetch. -/
def poll_generation_status (fetch : Nat → StatusFetchResult) (fuel : Nat) :
    Option PollRun :=
  poll_generation_status_aux fetch 0 fuel

/-- A status source that answers HTTP 200 with status PENDING forever. -/
def pending_forever_fetch : Nat → StatusFetchResult :=
  fun _ => StatusFetchResult.ok ⟨JobStatus.pending, []⟩

/-- A status source that answers PENDING on the first two fetches and
COMPLETE with one generated image on every later fetch. -/
def pending_pending_complete_fetch : Nat → StatusFetchResult :=
  fun i =>
    match i with
    | 0 => StatusFetchResult.ok ⟨JobStatus.pending, []⟩
    | 1 => StatusFetchResult.ok ⟨JobStatus.pending, []⟩
    | _ => StatusFetchResult.ok ⟨JobStatus.complete, [⟨"img-1", "http-img-url"⟩]⟩

/-! ## The polling phase of image generation
(generate_story.py, generate_image_for_keyframe lines 52-100)

attempt_generation starts a 300-second clock and loops: if the clock has
exceeded max_poll_time it returns the timeout result, otherwise it calls
poll_generation_status (which blocks until that inner loop returns) and
handles the outcome.  Elapsed time is modelled as 5 seconds per inner
sleep plus 2 seconds for the outer asyncio.sleep(2). -/

/-- The 300-second polling bound of generate_story.py
(max_poll_time = 300). -/
def max_poll_time : Nat := 300

/-- The outcome of the polling phase of one image-generation attempt,
tagged by the return site in the Python code.  saved is the successful
download; failedAttempt covers every break that falls through to the
plain (None, None, None) return; timedOut is the return at the
max_poll_time check; outOfFuel models a phase that never returns. -/
inductive AttemptOutcome
  | saved (generationId imageId : String)
  | failedAttempt
  | timedOut
  | outOfFuel
deriving DecidableEq, Repr

/-- The polling phase of attempt_generation: the outer while-loop of
generate_image_for_keyframe after a successful submit, with download
success abstracted as a predicate on the image URL. -/
def attempt_generation_poll (fetch : Nat → StatusFetchResult)
    (download : String → Bool) (generationId : String) (elapsed i : Nat) :
    Nat → AttemptOutcome
  | 0 => AttemptOutcome.outOfFuel
  | fuel + 1 =>
    if max_poll_time < elapsed then AttemptOutcome.timedOut
    else
      match poll_generation_status_aux fetch i (fuel + 1) with
      | Option.none => AttemptOutcome.outOfFuel
      | Option.some run =>
        match run.result with
        | Option.none => AttemptOutcome.failedAttempt
        | Option.some (d, imageId) =>
          match d.status with
          | JobStatus.complete =>
            match d.generated_images.head? with
            | Option.none => AttemptOutcome.failedAttempt
            | Option.some gi =>
              if gi.url = "" then AttemptOutcome.failedAttempt
              else if download gi.url then
                AttemptOutcome.saved generationId (imageId.getD "")
              else AttemptOutcome.failedAttempt
          | JobStatus.failed => AttemptOutcome.failedAttempt
          | JobStatus.deleted => AttemptOutcome.failedAttempt
          | _ =>
            attempt_generation_poll fetch download generationId
              (elapsed + poll_sleep_seconds * run.sleeps + 2) (i + run.fetches) fuel

/-! ## Motion generation with static-video fallback
(generate_story.py, generate_motion_for_image lines 125-205, and
leonardo_api.py, poll_motion_status lines 140-161)

generate_motion_for_image submits one motion job; on a rejected submit, a
failed poll, a missing or undownloadable video URL, a FAILED/DELETED
status or the (intended) 300-second timeout it calls
generate_static_video_from_image with the scene's image path and returns.
The static renderer itself only runs ffmpeg and reports; it never calls
back into motion generation.  The embedding records how many motion
submissions happen and the exact arguments of every fallback call. -/

/-- The generations_motion_by_pk payload of one motion status fetch. -/
structure MotionData where
  status : JobStatus
  url : Option String
deriving DecidableEq, Repr

/-- The outcome of one motion status fetch. -/
inductive MotionFetchResult
  | transportError
  | ok (data : MotionData)

/-- A finished run of poll_motion_status: the returned payload (None on
transport error or FAILED/DELETED), fetch count and sleep count. -/
structure MotionPollRun where
  result : Option MotionData
  fetches : Nat
  sleeps : Nat
deriving DecidableEq, Repr

/-- poll_motion_status of leonardo_api.py, unrolled from fetch index i:
same unbounded loop shape as poll_generation_status. -/
def poll_motion_status_aux (fetch : Nat → MotionFetchResult) (i : Nat) :
    Nat → Option MotionPollRun
  | 0 => Option.none
  | fuel + 1 =>
    match fetch i with
    | MotionFetchResult.transportError => Option.some ⟨Option.none, 1, 0⟩
    | MotionFetchResult.ok d =>
      match d.status with
      | JobStatus.complete => Option.some ⟨Option.some d, 1, 0⟩
      | JobStatus.failed => Option.some ⟨Option.none, 1, 0⟩
      | JobStatus.deleted => Option.some ⟨Option.none, 1, 0⟩
      | _ =>
        (poll_motion_status_aux fetch (i + 1) fuel).map
          fun r => ⟨r.result, r.fetches + 1, r.sleeps + 1⟩

/-- A motion status source that answers HTTP 200 with PENDING forever. -/
def pending_forever_motion_fetch : Nat → MotionFetchResult :=
  fun _ => MotionFetchResult.ok ⟨JobStatus.pending, Option.none⟩

/-- How one run of generate_motion_for_image ended. -/
inductive MotionOutcome
  | savedVideo
  | fellBack
  | outOfFuel
deriving DecidableEq, Repr

/-- The observable trace of one generate_motion_for_image run: the number
of motion submissions issued, the image paths passed to
generate_static_video_from_image (in call order), and how the run ended. -/
structure MotionTrace where
  submits : Nat
  fallbackPaths : List String
  outcome : MotionOutcome
deriving DecidableEq, Repr

/-- The outer polling loop of generate_motion_for_image: timeout check,
then a blocking poll_motion_status call, then COMPLETE/FAILED handling
with the fallback on every failure path.  Returns the fallback calls made
by the loop and the outcome. -/
def motion_poll_loop (fetch : Nat → MotionFetchResult) (download : String → Bool)
    (imagePath : String) (elapsed i : Nat) : Nat → List String × MotionOutcome
  | 0 => ([], MotionOutcome.outOfFuel)
  | fuel + 1 =>
    if max_poll_time < elapsed then ([imagePath], MotionOutcome.fellBack)
    else
      match poll_motion_status_aux fetch i (fuel + 1) with
      | Option.none => ([], MotionOutcome.outOfFuel)
      | Option.some run =>
        match run.result with
        | Option.none => ([imagePath], MotionOutcome.fellBack)
        | Option.some d =>
          match d.status with
          | JobStatus.complete =>
            match d.url with
            | Option.none => ([imagePath], MotionOutcome.fellBack)
            | Option.some u =>
              if download u then ([], MotionOutcome.savedVideo)
              else ([imagePath], MotionOutcome.fellBack)
          | JobStatus.failed => ([imagePath], MotionOutcome.fellBack)
          | JobStatus.deleted => ([imagePath], MotionOutcome.fellBack)
          | _ =>
            motion_poll_loop fetch download imagePath
              (elapsed + poll_sleep_seconds * run.sleeps + 2) (i + run.fetches) fuel

/-- generate_motion_for_image of generate_story.py: one motion submission;
a rejected submit falls back immediately, otherwise the polling loop runs.
The static-video fallback is a single call that is never retried and never
resubmits motion, so the trace records at most its one invocation. -/
def generate_motion_for_image (submitResult : Option String)
    (fetch : Nat → MotionFetchResult) (download : String → Bool)
    (imagePath : String) (fuel : Nat) : MotionTrace :=
  match submitResult with
  | Option.none => ⟨1, [imagePath], MotionOutcome.fellBack⟩
  | Option.some _ =>
    let r := motion_poll_loop fetch download imagePath 0 0 fuel
    ⟨1, r.1, r.2⟩

/-! ## The tail of the generate_story pipeline
(story_generator.py, lines 491-549)

After the per-keyframe scene lists are collected in submission order, the
pipeline optionally assigns optimizer prompts to every scene by a running
index, optionally synthesizes a voiceover per scene and regroups the flat
result in chunks of two, and finally zips the per-keyframe scene lists
with the voiceover groups into the returned story entries.  TTS synthesis
is abstracted as a stub from a scene to a result; an exception raised in
Python is an Except.error value, and a stage whose exception propagates to
the caller is a function returning Except.error. -/

/-- The per-keyframe scene generation fan-out (story_generator.py lines
496-502): one generate_keyframe_scenes task per keyframe, results
collected positionally in submission order. -/
def scene_generation_stage (genScenes : Keyframe → KeyframesWithDialog)
    (keyframes : List Keyframe) : List KeyframesWithDialog :=
  keyframes.map genScenes

/-- The flat list of all scenes of all keyframes, in pipeline order
(for keyframe_scenes in all_scenes: for scene in keyframe_scenes.scenes). -/
def all_story_scenes : List KeyframesWithDialog → List KeyframeScene
  | [] => []
  | ks :: rest => ks.scenes ++ all_story_scenes rest

/-- generate_voiceover of story_generator.py (lines 215-240): calls the
TTS stub and returns the audio; on an exception it logs and re-raises, so
the error propagates unchanged. -/
def generate_voiceover (synth : KeyframeScene → Except String String)
    (scene : KeyframeScene) : Except String String :=
  match synth scene with
  | Except.ok audio => Except.ok audio
  | Except.error e => Except.error e

/-- Collecting the voiceover task results in submission order
(voiceovers = [task.result() for task in voiceover_tasks], line 535): the
first task whose result raises aborts the whole collection. -/
def collect_voiceover_results (synth : KeyframeScene → Except String String) :
    List KeyframeScene → Except String (List String)
  | [] => Except.ok []
  | s :: rest =>
    match generate_voiceover synth s with
    | Except.error e => Except.error e
    | Except.ok audio =>
      match collect_voiceover_results synth rest with
      | Except.error e => Except.error e
      | Except.ok audios => Except.ok (audio :: audios)

/-- The voiceover fan-out stage over every scene of every keyframe
(story_generator.py lines 530-535). -/
def voiceover_stage (synth : KeyframeScene → Except String String)
    (all_scenes : List KeyframesWithDialog) : Except String (List String) :=
  collect_voiceover_results synth (all_story_scenes all_scenes)

/-- The regrouping of the flat voiceover list, two scenes per keyframe
assumed (story_generator.py lines 538-540:
grouped_voiceovers = [voiceovers[i:i+2] for i in range(0, len(voiceovers), 2)]). -/
def group_voiceovers : List String → List (List String)
  | [] => []
  | [a] => [[a]]
  | a :: b :: rest => [a, b] :: group_voiceovers rest

/-- One entry of the returned story list (story_generator.py lines
546-549): the first scene's description, the scene list, the shared
visual style, and the voiceover group for this entry (None when voiceover
generation is disabled). -/
structure StoryEntry where
  desc : String
  scenes : List KeyframeScene
  style : LeonardoStyles
  voiceover : Option (List String)
deriving DecidableEq, Repr

/-- The final zip of per-keyframe scene lists against voiceover groups:
zip truncates at the shorter list, and scenes.scenes[0] raises IndexError
when a keyframe produced no scenes. -/
def combine_story_results (style : LeonardoStyles) :
    List KeyframesWithDialog → List (Option (List String)) →
      Except String (List StoryEntry)
  | [], _ => Except.ok []
  | _ :: _, [] => Except.ok []
  | ks :: krest, vo :: vrest =>
    match ks.scenes with
    | [] => Except.error "IndexError"
    | s0 :: _ =>
      match combine_story_results style krest vrest with
      | Except.error e => Except.error e
      | Except.ok entries => Except.ok (⟨s0.description, ks.scenes, style, vo⟩ :: entries)

/-- The tail of generate_story from the collected scene lists to the
story entries: optional voiceover fan-out and chunk-of-2 regrouping, then
the final zip.  When voiceover generation is disabled the voiceover slots
are [None] * len(all_scenes). -/
def generate_story_tail (all_scenes : List KeyframesWithDialog)
    (voiceoverEnabled : Bool) (synth : KeyframeScene → Except String String)
    (style : LeonardoStyles) : Except String (List StoryEntry) :=
  if voiceoverEnabled then
    match voiceover_stage synth all_scenes with
    | Except.error e => Except.error e
    | Except.ok flat =>
      combine_story_results style all_scenes ((group_voiceovers flat).map Option.some)
  else
    combine_story_results style all_scenes (all_scenes.map fun _ => Option.none)

/-! ## Positional assignment of optimizer prompts
(story_generator.py, lines 519-524)

prompt_idx = 0; for keyframe_scenes in all_scenes: for scene in
keyframe_scenes.scenes: scene.leonardo_prompt = optimized_prompts[prompt_idx];
prompt_idx += 1.  A Python list index out of range raises IndexError,
which nothing catches here, so it is a run-level failure. -/

/-- Assignment of prompts to the scenes of one keyframe, from a running
index; returns the updated scenes and the next index. -/
def assign_prompts_scene_list (prompts : List String) :
    Nat → List KeyframeScene → Except String (List KeyframeScene × Nat)
  | idx, [] => Except.ok ([], idx)
  | idx, s :: rest =>
    match prompts[idx]? with
    | Option.none => Except.error "IndexError"
    | Option.some p =>
      match assign_prompts_scene_list prompts (idx + 1) rest with
      | Except.error e => Except.error e
      | Except.ok (rs, idx') => Except.ok ({ s with leonardo_prompt := Option.some p } :: rs, idx')

/-- Assignment of prompts across all keyframes, threading the running
index through the nested loops. -/
def assign_prompts_go (prompts : List String) :
    Nat → List KeyframesWithDialog → Except String (List KeyframesWithDialog × Nat)
  | idx, [] => Except.ok ([], idx)
  | idx, ks :: rest =>
    match assign_prompts_scene_list prompts idx ks.scenes with
    | Except.error e => Except.error e
    | Except.ok (ss, idx') =>
      match assign_prompts_go prompts idx' rest with
      | Except.error e => Except.error e
      | Except.ok (krest, idx'') => Except.ok (⟨ss⟩ :: krest, idx'')

/-- The leonardo_prompt assignment step of generate_story when image
generation is enabled. -/
def assign_leonardo_prompts (all_scenes : List KeyframesWithDialog)
    (prompts : List String) : Except String (List KeyframesWithDialog) :=
  (assign_prompts_go prompts 0 all_scenes).map Prod.fst

/-- The total number of scenes across all keyframes. -/
def total_scene_count (all_scenes : List KeyframesWithDialog) : Nat :=
  (all_story_scenes all_scenes).length

/-! ## The numbered-prompt output parser
(story_generator.py, optimize_leonardo_prompts lines 331-355)

The LLM response text is stripped, split on newlines, and scanned with a
current segment and an expected index starting at 1: a stripped line equal
to the empty string is skipped; a line starting with the marker
"{expected}:" flushes the current segment (when non-empty), starts a new
one from the rest of the line, and increments the expected index; every
other line — including a numbered line whose index is not the expected
one — is appended to the current segment.  Python string operations are
embedded over character lists so that concrete runs reduce inside the
kernel. -/

/-- Python str.strip(): remove leading and trailing whitespace. -/
def pyStrip (cs : List Char) : List Char :=
  ((cs.dropWhile Char.isWhitespace).reverse.dropWhile Char.isWhitespace).reverse

/-- Helper of splitLines, accumulating the current line reversed. -/
def splitLinesAux : List Char → List Char → List (List Char)
  | [], cur => [cur.reverse]
  | c :: rest, cur =>
    if c = '\n' then cur.reverse :: splitLinesAux rest []
    else splitLinesAux rest (c :: cur)

/-- Python str.split with separator newline. -/
def splitLines (cs : List Char) : List (List Char) :=
  splitLinesAux cs []

/-- The decimal digit character of d < 10. -/
def digitChar (d : Nat) : Char := Char.ofNat (48 + d)

/-- Decimal digits of a natural number, fuelled to stay structural. -/
def natCharsAux : Nat → Nat → List Char
  | 0, _ => []
  | fuel + 1, n =>
    if n < 10 then [digitChar n]
    else natCharsAux fuel (n / 10) ++ [digitChar (n % 10)]

/-- Decimal representation of a natural number as characters. -/
def natChars (n : Nat) : List Char := natCharsAux (n + 1) n

/-- Python str.startswith on character lists: the second list is the
candidate prefix of the first. -/
def startsWithChars : List Char → List Char → Bool
  | _, [] => true
  | [], _ :: _ => false
  | c :: cs, p :: ps => c = p && startsWithChars cs ps

/-- Python newline.join on the collected lines of one segment. -/
def joinLinesNL : List (List Char) → List Char
  | [] => []
  | [l] => l
  | l :: rest => l ++ '\n' :: joinLinesNL rest

/-- The scanning loop of optimize_leonardo_prompts: lines still to read,
finished segments, lines of the current segment, expected index. -/
def parse_prompts_go :
    List (List Char) → List (List Char) → List (List Char) → Nat → List (List Char)
  | [], acc, cur, _ => if cur.isEmpty then acc else acc ++ [joinLinesNL cur]
  | l :: rest, acc, cur, n =>
    let line := pyStrip l
    if line.isEmpty then parse_prompts_go rest acc cur n
    else
      let marker := natChars n ++ [':']
      if startsWithChars line marker then
        parse_prompts_go rest (if cur.isEmpty then acc else acc ++ [joinLinesNL cur])
          [pyStrip (line.drop marker.length)] (n + 1)
      else parse_prompts_go rest acc (cur ++ [line]) n

/-- The response parser of optimize_leonardo_prompts: strip the response,
split it on newlines, and scan with expected index starting at 1. -/
def parse_optimized_prompts (content : String) : List String :=
  (parse_prompts_go (splitLines (pyStrip content.data)) [] [] 1).map
    fun cs => String.mk cs

/-! ## Concrete fixtures used by counterexamples and witnesses -/

/-- Whether an Except value is a success. -/
def exceptIsOk {ε α : Type} : Except ε α → Bool
  | Except.ok _ => true
  | Except.error _ => false

/-- A fixed character profile for test scenes. -/
def fixture_character : Character :=
  ⟨Role.narrator, "Narrator", "storyteller", "a voice", "wise"⟩

/-- A test scene whose dialog, title and description all equal the tag. -/
def test_scene (t : String) : KeyframeScene :=
  { character := fixture_character, dialog := t, title := t, description := t,
    characters_in_scene := [] }

/-- A first test keyframe. -/
def kfA : Keyframe := ⟨"K1", "first keyframe", []⟩

/-- A second test keyframe. -/
def kfB : Keyframe := ⟨"K2", "second keyframe", []⟩

/-- A TTS stub returning the scene title as the audio payload. -/
def title_synth : KeyframeScene → Except String String :=
  fun s => Except.ok s.title

/-- A TTS stub that raises on the scene titled A and succeeds elsewhere. -/
def failing_on_A_synth : KeyframeScene → Except String String :=
  fun s => if s.title = "A" then Except.error "tts boom" else Except.ok s.title

/-- Scene generation producing one scene per keyframe. -/
def one_scene_each : Keyframe → KeyframesWithDialog :=
  fun kf => ⟨[test_scene kf.title]⟩

/-- Scene generation producing two scenes for the first keyframe and one
for the second (scene counts 2, 1). -/
def two_one_scenes : Keyframe → KeyframesWithDialog :=
  fun kf =>
    if kf.title = "K1" then ⟨[test_scene "A", test_scene "B"]⟩
    else ⟨[test_scene "C"]⟩

/-- Scene generation producing one scene for the first keyframe and two
for the second (scene counts 1, 2). -/
def one_two_scenes : Keyframe → KeyframesWithDialog :=
  fun kf =>
    if kf.title = "K1" then ⟨[test_scene "A"]⟩
    else ⟨[test_scene "B", test_scene "C"]⟩

/-- Scene generation producing exactly two scenes per keyframe. -/
def two_scenes_each : Keyframe → KeyframesWithDialog :=
  fun kf => ⟨[test_scene (kf.title ++ "a"), test_scene (kf.title ++ "b")]⟩

end Hypeloop

namespace Hypeloop

/-! ## Theorems -/

/-- Claim C4: for every scene, the prompt submitted to image generation is
the leonardo_prompt exactly when that field is present and non-empty, and
the raw description when the field is None or empty; the result always
equals one of the two fields, never a combination. -/
theorem scene_image_prompt_exclusive (s : KeyframeScene) :
    (∀ p, s.leonardo_prompt = Option.some p → p ≠ "" → scene_image_prompt s = p) ∧
    (s.leonardo_prompt = Option.none → scene_image_prompt s = s.description) ∧
    (s.leonardo_prompt = Option.some "" → scene_image_prompt s = s.description) ∧
    (scene_image_prompt s = s.description ∨
      ∃ p, s.leonardo_prompt = Option.some p ∧ scene_image_prompt s = p) := by
  refine ⟨?_, ?_, ?_, ?_⟩
  · intro p hp hne
    simp [scene_image_prompt, hp, hne]
  · intro h
    simp [scene_image_prompt, h]
  · intro h
    simp [scene_image_prompt, h]
  · match h : s.leonardo_prompt with
    | Option.none => simp [scene_image_prompt, h]
    | Option.some p =>
      by_cases hp : p = ""
      · simp [scene_image_prompt, h, hp]
      · exact Or.inr ⟨p, rfl, by simp [scene_image_prompt, h, hp]⟩

/-- Witness for scene_image_prompt_exclusive at concrete scenes: a scene
with a non-empty leonardo_prompt uses it, and a scene without one uses its
description. -/
theorem scene_image_prompt_exclusive_witness :
    scene_image_prompt
      { character := ⟨Role.narrator, "N", "b", "d", "p"⟩, dialog := "hi",
        title := "t", description := "raw desc",
        characters_in_scene := [], leonardo_prompt := Option.some "opt prompt" } = "opt prompt" ∧
    scene_image_prompt
      { character := ⟨Role.narrator, "N", "b", "d", "p"⟩, dialog := "hi",
        title := "t", description := "raw desc",
        characters_in_scene := [], leonardo_prompt := Option.none } = "raw desc" := by
  constructor
  · exact (scene_image_prompt_exclusive _).1 "opt prompt" rfl (by decide)
  · exact (scene_image_prompt_exclusive _).2.1 rfl

/-- Claim C2 counterexample: with the call-site value maxRetries = 2, a stub
that fails attempts 1 and 2 and succeeds on attempt 3 makes the controller
return the null result, even though the stub would have succeeded on the
claimed third attempt: only two attempts are ever made. -/
theorem image_retry_skips_third_attempt :
    generate_image_for_keyframe attempt_succeeds_third "a stormy lighthouse" 2 = Option.none ∧
    attempt_succeeds_third 3 ("a stormy lighthouse" ++ quality_boost_suffix) =
      Option.some ⟨"kf.jpg", "gen-3", "img-3"⟩ := by
  constructor
  · rfl
  · rfl

/-- Claim C2 amended: with the call-site value maxRetries = 2 the controller
makes exactly two attempts: attempt 1 with the prompt verbatim, and, if that
fails, attempt 2 with the fixed quality-boost suffix appended; the first
success is returned and if both fail the null result is returned. -/
theorem image_two_attempt_retry_behavior
    (attempt : Nat → String → Option ImageGenResult) (desc : String) :
    generate_image_for_keyframe attempt desc 2 =
      Option.orElse (attempt 1 desc) (fun _ => attempt 2 (desc ++ quality_boost_suffix)) := by
  have hrange : List.range' 2 (2 - 1) = [2] := by decide
  unfold generate_image_for_keyframe
  rw [hrange]
  cases attempt 1 desc with
  | none =>
    cases h : attempt 2 (desc ++ quality_boost_suffix) with
    | none => simp [image_retry_loop, h, Option.orElse]
    | some r => simp [image_retry_loop, h, Option.orElse]
  | some r => simp [Option.orElse]

/-- Against a status source that never leaves PENDING, the inner polling
loop of poll_generation_status never returns, whatever the fetch bound. -/
theorem poll_generation_status_pending_forever (i : Nat) :
    ∀ fuel, poll_generation_status_aux pending_forever_fetch i fuel = Option.none := by
  intro fuel
  induction fuel generalizing i with
  | zero => rfl
  | succ n ih =>
    simp [poll_generation_status_aux, pending_forever_fetch, ih]

/-- Claim C1: against a status source that answers HTTP 200 with status
PENDING on every fetch, the polling phase of image generation never
produces any result at all — in particular it never produces the timedOut
outcome of the 300-second check, because poll_generation_status blocks
inside its own unbounded loop and the check is only evaluated between
calls to it.  The claimed bounded termination with a timeout signal fails
on the code. -/
theorem image_poll_never_times_out (download : String → Bool)
    (generationId : String) (fuel : Nat) :
    attempt_generation_poll pending_forever_fetch download generationId 0 0 fuel =
      AttemptOutcome.outOfFuel := by
  cases fuel with
  | zero => rfl
  | succ n =>
    simp [attempt_generation_poll, max_poll_time,
      poll_generation_status_pending_forever]

/-- Claim C7: against a status source that reports PENDING twice and then
COMPLETE, poll_generation_status returns the COMPLETE payload, including
the generated-image descriptors and the first image id, after exactly 3
status fetches separated by exactly 2 sleeps of 5 seconds each, for every
sufficient fetch bound. -/
theorem poller_three_fetches_two_sleeps (n : Nat) :
    poll_generation_status pending_pending_complete_fetch (n + 3) =
      Option.some
        ⟨Option.some (⟨JobStatus.complete, [⟨"img-1", "http-img-url"⟩]⟩,
          Option.some "img-1"), 3, 2⟩ ∧
    poll_sleep_seconds = 5 := by
  constructor
  · show poll_generation_status_aux pending_pending_complete_fetch 0 (n + 3) = _
    simp [poll_generation_status_aux, pending_pending_complete_fetch]
  · rfl

/-- Against a motion status source that never leaves PENDING, the inner
loop of poll_motion_status never returns, whatever the fetch bound. -/
theorem poll_motion_status_pending_forever (i : Nat) :
    ∀ fuel, poll_motion_status_aux pending_forever_motion_fetch i fuel = Option.none := by
  intro fuel
  induction fuel generalizing i with
  | zero => rfl
  | succ n ih =>
    simp [poll_motion_status_aux, pending_forever_motion_fetch, ih]

/-- In every run of the motion polling loop, the static-video fallback is
invoked at most once, and when it is invoked its argument is exactly the
scene's image path. -/
theorem motion_poll_loop_fallback_at_most_once
    (fetch : Nat → MotionFetchResult) (download : String → Bool)
    (imagePath : String) :
    ∀ fuel elapsed i,
      (motion_poll_loop fetch download imagePath elapsed i fuel).1 = [] ∨
      (motion_poll_loop fetch download imagePath elapsed i fuel).1 = [imagePath] := by
  intro fuel
  induction fuel with
  | zero => intro elapsed i; left; rfl
  | succ n ih =>
    intro elapsed i
    rw [motion_poll_loop]
    by_cases h : max_poll_time < elapsed
    · simp [h]
    · simp only [h, if_false]
      cases poll_motion_status_aux fetch i (n + 1) with
      | none => left; rfl
      | some run =>
        obtain ⟨res, fetches, sleeps⟩ := run
        cases res with
        | none => simp
        | some d =>
          obtain ⟨st, url⟩ := d
          cases st with
          | complete =>
            cases url with
            | none => simp
            | some u =>
              by_cases hd : download u <;> simp [hd]
          | failed => simp
          | deleted => simp
          | pending => simpa using ih _ _
          | unknown => simpa using ih _ _

/-- Claim C3: against a motion status source that answers HTTP 200 with
status PENDING on every fetch (the timeout failure mode of the claim), the
motion job is submitted once and then generate_motion_for_image never
returns: the static-video fallback is never invoked at all, because
poll_motion_status blocks inside its own unbounded loop and the
300-second timeout branch that would trigger the fallback is only
evaluated between calls to it.  The claimed fallback-on-timeout fails on
the code. -/
theorem motion_timeout_never_falls_back (download : String → Bool)
    (imagePath : String) (fuel : Nat) :
    generate_motion_for_image (Option.some "motion-gen-id")
        pending_forever_motion_fetch download imagePath fuel =
      ⟨1, [], MotionOutcome.outOfFuel⟩ := by
  cases fuel with
  | zero => rfl
  | succ n =>
    simp [generate_motion_for_image, motion_poll_loop, max_poll_time,
      poll_motion_status_pending_forever]

/-- Claim C8 counterexample: an index gap in the numbered output is not a
malformed-response error — the parser silently merges the out-of-sequence
numbered line into the current segment and returns a single segment. -/
theorem prompt_gap_merged_silently :
    parse_optimized_prompts "1: a\n3: b" = ["a\n3: b"] := by
  decide

/-- Claim C8 amended: lines beginning with the next expected index marker
split the text into one segment per index when the indices are exactly
sequential (continuation lines accumulate into the current segment), and a
numbered line whose index is not the next expected one is never an error:
it is silently merged — an out-of-order leading line even becomes a
spurious first segment. -/
theorem prompt_numbering_behavior :
    parse_optimized_prompts "1: a\n2: b\n3: c" = ["a", "b", "c"] ∧
    parse_optimized_prompts "1: a\ncontinued\n2: b" = ["a\ncontinued", "b"] ∧
    parse_optimized_prompts "2: b\n1: a" = ["2: b", "a"] := by
  refine ⟨by decide, by decide, by decide⟩

/-- Collecting voiceover results succeeds exactly when the synthesizer
succeeds on every scene of the list. -/
theorem collect_voiceover_results_ok_iff
    (synth : KeyframeScene → Except String String) :
    ∀ l : List KeyframeScene,
      (∃ out, collect_voiceover_results synth l = Except.ok out) ↔
        ∀ s ∈ l, ∃ a, synth s = Except.ok a := by
  intro l
  induction l with
  | nil => simp [collect_voiceover_results]
  | cons s rest ih =>
    constructor
    · rintro ⟨out, hout⟩
      intro x hx
      rcases List.mem_cons.mp hx with hx | hx
      · subst hx
        cases hs : synth x with
        | ok a => exact ⟨a, rfl⟩
        | error e =>
          rw [collect_voiceover_results, generate_voiceover, hs] at hout
          cases hout
      · cases hs : synth s with
        | error e =>
          rw [collect_voiceover_results, generate_voiceover, hs] at hout
          cases hout
        | ok a =>
          rw [collect_voiceover_results, generate_voiceover, hs] at hout
          cases hrest : collect_voiceover_results synth rest with
          | error e => rw [hrest] at hout; cases hout
          | ok outs => exact (ih.mp ⟨outs, hrest⟩) x hx
    · intro h
      obtain ⟨a, ha⟩ := h s (List.mem_cons_self s rest)
      obtain ⟨outs, houts⟩ := ih.mpr fun x hx => h x (List.mem_cons_of_mem s hx)
      exact ⟨a :: outs, by rw [collect_voiceover_results, generate_voiceover, ha, houts]⟩

/-- A synthesizer that never raises yields the audio of every scene in
pipeline order. -/
theorem collect_voiceover_results_pure (f : KeyframeScene → String) :
    ∀ l : List KeyframeScene,
      collect_voiceover_results (fun s => Except.ok (f s)) l = Except.ok (l.map f) := by
  intro l
  induction l with
  | nil => rfl
  | cons s rest ih =>
    rw [collect_voiceover_results, generate_voiceover]
    simp [ih]

/-- Claim C5 counterexample: two keyframes with one scene each are fanned
out for voiceover; the synthesizer raises on the first scene although it
would succeed on the second, and the whole voiceover stage propagates the
exception instead of yielding a result for the sibling scene: the run is
terminated, no per-scene placeholder is produced. -/
theorem voiceover_exception_stops_siblings :
    voiceover_stage failing_on_A_synth
        [⟨[test_scene "A"]⟩, ⟨[test_scene "B"]⟩] = Except.error "tts boom" ∧
    failing_on_A_synth (test_scene "B") = Except.ok "B" := by
  exact ⟨rfl, rfl⟩

/-- Claim C5 amended: an exception inside one image-generation attempt is
captured and becomes the null result for that scene (the all-failing
attempt stub yields None rather than an error), but a voiceover synthesis
exception is re-raised by generate_voiceover and propagates out of the
fan-out: the voiceover stage succeeds exactly when synthesis succeeds for
every scene, and only a never-raising synthesizer yields the per-scene
audio list in order. -/
theorem voiceover_failure_propagates
    (synth : KeyframeScene → Except String String)
    (all_scenes : List KeyframesWithDialog) :
    ((∃ out, voiceover_stage synth all_scenes = Except.ok out) ↔
      ∀ s ∈ all_story_scenes all_scenes, ∃ a, synth s = Except.ok a) ∧
    (∀ f : KeyframeScene → String,
      voiceover_stage (fun s => Except.ok (f s)) all_scenes =
        Except.ok ((all_story_scenes all_scenes).map f)) ∧
    (∀ desc : String,
      generate_image_for_keyframe (fun _ _ => Option.none) desc 2 = Option.none) := by
  refine ⟨?_, ?_, ?_⟩
  · exact collect_voiceover_results_ok_iff synth (all_story_scenes all_scenes)
  · intro f
    exact collect_voiceover_results_pure f (all_story_scenes all_scenes)
  · intro desc
    rfl

/-- Witness for voiceover_failure_propagates: the never-raising title
synthesizer on one keyframe with two scenes yields both audio payloads in
order. -/
theorem voiceover_failure_propagates_witness :
    voiceover_stage (fun s => Except.ok (KeyframeScene.title s))
        [⟨[test_scene "A", test_scene "B"]⟩] = Except.ok ["A", "B"] := by
  have h :=
    (voiceover_failure_propagates (fun s => Except.ok (KeyframeScene.title s))
      [⟨[test_scene "A", test_scene "B"]⟩]).2.1 KeyframeScene.title
  simpa [all_story_scenes, test_scene] using h

/-- When every keyframe contributed at least one scene and the voiceover
slots match the keyframes one-to-one, the final zip succeeds and builds
one entry per keyframe, positionally: the scene lists, voiceover slots and
first-scene descriptions all line up. -/
theorem combine_story_results_ok (style : LeonardoStyles) :
    ∀ (L : List KeyframesWithDialog) (vos : List (Option (List String))),
      (∀ ks ∈ L, ks.scenes ≠ []) → L.length = vos.length →
      ∃ entries, combine_story_results style L vos = Except.ok entries ∧
        entries.map StoryEntry.scenes = L.map KeyframesWithDialog.scenes ∧
        entries.map StoryEntry.voiceover = vos ∧
        entries.map (fun e => Option.some e.desc) =
          L.map (fun ks => ks.scenes.head?.map KeyframeScene.description) ∧
        entries.length = L.length := by
  intro L
  induction L with
  | nil =>
    intro vos h hlen
    cases vos with
    | nil => exact ⟨[], rfl, rfl, rfl, rfl, rfl⟩
    | cons v vs => simp at hlen
  | cons ks rest ih =>
    intro vos h hlen
    cases vos with
    | nil => simp at hlen
    | cons vo vrest =>
      have hne : ks.scenes ≠ [] := h ks (List.mem_cons_self _ _)
      obtain ⟨entries, heq, hsc, hvo, hdesc, hlen2⟩ :=
        ih vrest (fun x hx => h x (List.mem_cons_of_mem _ hx)) (by simpa using hlen)
      cases hscenes : ks.scenes with
      | nil => exact absurd hscenes hne
      | cons s0 srest =>
        refine ⟨⟨s0.description, ks.scenes, style, vo⟩ :: entries, ?_, ?_, ?_, ?_, ?_⟩
        · rw [combine_story_results, hscenes, heq]
        · simp [hsc]
        · simp [hvo]
        · simp [hdesc, hscenes]
        · simp [hlen2]

/-- Claim C6 counterexample: with voiceover generation enabled, two
keyframes that produced one scene each yield only one story entry (the
chunk-of-2 regrouping makes one voiceover group and the final zip
truncates), not two; and with a keyframe that produced no scenes the
pipeline raises IndexError instead of returning entries. -/
theorem story_entries_voiceover_truncation :
    (generate_story_tail (scene_generation_stage one_scene_each [kfA, kfB]) true
        title_synth LeonardoStyles.watercolor).map List.length = Except.ok 1 ∧
    (scene_generation_stage one_scene_each [kfA, kfB]).length = 2 ∧
    generate_story_tail (scene_generation_stage (fun _ => ⟨[]⟩) [kfA]) false
        title_synth LeonardoStyles.watercolor = Except.error "IndexError" := by
  exact ⟨rfl, rfl, rfl⟩

/-- Claim C6 amended: with voiceover generation disabled, for every list
of keyframes whose scene generation produced at least one scene each, the
pipeline tail returns exactly one entry per keyframe in submission order:
entry i carries keyframe i's scene list, an empty voiceover slot, and the
description of keyframe i's first scene. -/
theorem story_entries_positional_disabled
    (genScenes : Keyframe → KeyframesWithDialog) (keyframes : List Keyframe)
    (synth : KeyframeScene → Except String String) (style : LeonardoStyles)
    (h : ∀ kf ∈ keyframes, (genScenes kf).scenes ≠ []) :
    ∃ entries,
      generate_story_tail (scene_generation_stage genScenes keyframes) false synth style =
        Except.ok entries ∧
      entries.length = keyframes.length ∧
      entries.map StoryEntry.scenes = keyframes.map (fun kf => (genScenes kf).scenes) ∧
      entries.map StoryEntry.voiceover = List.replicate keyframes.length Option.none ∧
      entries.map (fun e => Option.some e.desc) =
        keyframes.map (fun kf => ((genScenes kf).scenes).head?.map KeyframeScene.description) := by
  have hne : ∀ ks ∈ scene_generation_stage genScenes keyframes, ks.scenes ≠ [] := by
    intro ks hks
    obtain ⟨kf, hkf, rfl⟩ := List.mem_map.mp hks
    exact h kf hkf
  obtain ⟨entries, heq, hsc, hvo, hdesc, hlen⟩ :=
    combine_story_results_ok style (scene_generation_stage genScenes keyframes)
      ((scene_generation_stage genScenes keyframes).map fun _ => Option.none) hne (by simp)
  refine ⟨entries, ?_, ?_, ?_, ?_, ?_⟩
  · rw [generate_story_tail]
    simpa using heq
  · rw [hlen]
    simp [scene_generation_stage]
  · rw [hsc]
    simp [scene_generation_stage, List.map_map, Function.comp]
  · rw [hvo]
    simp [scene_generation_stage, List.map_map, Function.comp_def, List.map_const']
  · rw [hdesc]
    simp [scene_generation_stage, List.map_map, Function.comp]

/-- Witness for story_entries_positional_disabled: two one-scene keyframes
with voiceover disabled give a successful pipeline tail. -/
theorem story_entries_positional_disabled_witness :
    exceptIsOk (generate_story_tail (scene_generation_stage one_scene_each [kfA, kfB])
      false title_synth LeonardoStyles.watercolor) = true := by
  obtain ⟨entries, heq, -, -, -, -⟩ :=
    story_entries_positional_disabled one_scene_each [kfA, kfB] title_synth
      LeonardoStyles.watercolor (by decide)
  rw [heq]
  rfl

/-- When every keyframe contributed exactly two scenes, regrouping the
flat per-scene list in chunks of two recovers exactly the per-keyframe
lists. -/
theorem group_voiceovers_pairs (f : KeyframeScene → String) :
    ∀ L : List KeyframesWithDialog, (∀ ks ∈ L, ks.scenes.length = 2) →
      group_voiceovers ((all_story_scenes L).map f) =
        L.map (fun ks => ks.scenes.map f) := by
  intro L
  induction L with
  | nil => intro h; rfl
  | cons ks rest ih =>
    intro h
    have h2 : ks.scenes.length = 2 := h ks (List.mem_cons_self _ _)
    obtain ⟨a, b, hab⟩ := List.length_eq_two.mp h2
    have hrest := ih fun x hx => h x (List.mem_cons_of_mem _ hx)
    rw [show all_story_scenes (ks :: rest) = ks.scenes ++ all_story_scenes rest from rfl,
      hab]
    simp [group_voiceovers, hrest, hab]

/-- Claim C9 counterexample: with scene counts (2, 1) — so not every
keyframe produced exactly 2 scenes — every returned entry still carries
exactly the audio of its own scenes in scene order, refuting the claimed
equivalence and the claimed mispairing of subsequent entries. -/
theorem voiceover_chunking_iff_fails :
    (generate_story_tail (scene_generation_stage two_one_scenes [kfA, kfB]) true
        title_synth LeonardoStyles.watercolor).map (List.map StoryEntry.voiceover) =
      Except.ok
        [Option.some ((two_one_scenes kfA).scenes.map KeyframeScene.title),
         Option.some ((two_one_scenes kfB).scenes.map KeyframeScene.title)] ∧
    ¬ (∀ kf ∈ [kfA, kfB], (two_one_scenes kf).scenes.length = 2) := by
  refine ⟨rfl, by decide⟩

/-- Claim C9 amended: with voiceover generation enabled the flat per-scene
voiceover list is regrouped in fixed chunks of 2 regardless of scene
counts.  When every keyframe produced exactly 2 scenes, entry i carries
the audio of its own scenes in scene order; but the converse direction of
the claimed equivalence fails, and the claimed mispairing needs a
non-final keyframe with a different count: with counts (1, 2) the first
entry's audio list contains the audio of the second keyframe's first
scene, and the second entry is left with only the remaining chunk. -/
theorem voiceover_chunking_amended :
    (∀ (genScenes : Keyframe → KeyframesWithDialog) (keyframes : List Keyframe)
        (f : KeyframeScene → String) (style : LeonardoStyles),
      (∀ kf ∈ keyframes, (genScenes kf).scenes.length = 2) →
      ∃ entries,
        generate_story_tail (scene_generation_stage genScenes keyframes) true
            (fun s => Except.ok (f s)) style = Except.ok entries ∧
        entries.length = keyframes.length ∧
        entries.map StoryEntry.scenes = keyframes.map (fun kf => (genScenes kf).scenes) ∧
        entries.map StoryEntry.voiceover =
          keyframes.map (fun kf => Option.some (((genScenes kf).scenes).map f))) ∧
    generate_story_tail (scene_generation_stage one_two_scenes [kfA, kfB]) true
        title_synth LeonardoStyles.watercolor =
      Except.ok
        [⟨"A", [test_scene "A"], LeonardoStyles.watercolor, Option.some ["A", "B"]⟩,
         ⟨"B", [test_scene "B", test_scene "C"], LeonardoStyles.watercolor,
          Option.some ["C"]⟩] := by
  constructor
  · intro genScenes keyframes f style h
    have h2 : ∀ ks ∈ scene_generation_stage genScenes keyframes, ks.scenes.length = 2 := by
      intro ks hks
      obtain ⟨kf, hkf, rfl⟩ := List.mem_map.mp hks
      exact h kf hkf
    have hne : ∀ ks ∈ scene_generation_stage genScenes keyframes, ks.scenes ≠ [] := by
      intro ks hks hnil
      have hl := h2 ks hks
      rw [hnil] at hl
      simp at hl
    have hstage :
        voiceover_stage (fun s => Except.ok (f s)) (scene_generation_stage genScenes keyframes) =
          Except.ok ((all_story_scenes (scene_generation_stage genScenes keyframes)).map f) :=
      collect_voiceover_results_pure f _
    have hgroup := group_voiceovers_pairs f (scene_generation_stage genScenes keyframes) h2
    obtain ⟨entries, heq, hsc, hvo, hdesc, hlen⟩ :=
      combine_story_results_ok style (scene_generation_stage genScenes keyframes)
        (((scene_generation_stage genScenes keyframes).map fun ks => ks.scenes.map f).map
          Option.some) hne (by simp)
    refine ⟨entries, ?_, ?_, ?_, ?_⟩
    · rw [generate_story_tail]
      simp only [if_true]
      rw [hstage]
      simp only [hgroup]
      exact heq
    · rw [hlen]
      simp [scene_generation_stage]
    · rw [hsc]
      simp [scene_generation_stage, List.map_map, Function.comp_def]
    · rw [hvo]
      simp [scene_generation_stage, List.map_map, Function.comp_def]
  · rfl

/-- Witness for voiceover_chunking_amended: two keyframes with exactly two
scenes each give a successful pipeline tail with voiceover enabled. -/
theorem voiceover_chunking_amended_witness :
    exceptIsOk (generate_story_tail (scene_generation_stage two_scenes_each [kfA, kfB]) true
      (fun s => Except.ok (KeyframeScene.title s)) LeonardoStyles.watercolor) = true := by
  obtain ⟨entries, heq, -, -, -⟩ :=
    voiceover_chunking_amended.1 two_scenes_each [kfA, kfB] KeyframeScene.title
      LeonardoStyles.watercolor (by decide)
  rw [heq]
  rfl

/-- Assigning prompts to one scene list succeeds when the prompt list is
long enough, consuming exactly one prompt per scene from the running
index. -/
theorem assign_prompts_scene_list_ok (prompts : List String) :
    ∀ (l : List KeyframeScene) (idx : Nat), idx + l.length ≤ prompts.length →
      ∃ out, assign_prompts_scene_list prompts idx l = Except.ok (out, idx + l.length) ∧
        out.map KeyframeScene.leonardo_prompt =
          ((prompts.drop idx).take l.length).map Option.some ∧
        out.length = l.length := by
  intro l
  induction l with
  | nil =>
    intro idx h
    exact ⟨[], by simp [assign_prompts_scene_list], by simp, rfl⟩
  | cons s rest ih =>
    intro idx h
    have hidx : idx < prompts.length := by
      simp only [List.length_cons] at h
      omega
    obtain ⟨out, hout, hmap, hlen⟩ := ih (idx + 1) (by simp at h ⊢; omega)
    refine ⟨{ s with leonardo_prompt := Option.some prompts[idx] } :: out, ?_, ?_, ?_⟩
    · rw [assign_prompts_scene_list, List.getElem?_eq_getElem hidx, hout]
      have harith : idx + 1 + rest.length = idx + (rest.length + 1) := by omega
      rw [harith]
      rfl
    · have hdrop : prompts.drop idx = prompts[idx] :: prompts.drop (idx + 1) :=
        List.drop_eq_getElem_cons hidx
      simp only [hdrop, List.length_cons, List.take_succ_cons, List.map_cons, hmap]
    · simp [hlen]

/-- Assigning prompts to a non-empty scene list whose span exceeds the
prompt list raises IndexError. -/
theorem assign_prompts_scene_list_err (prompts : List String) :
    ∀ (l : List KeyframeScene) (idx : Nat), prompts.length < idx + l.length →
      l ≠ [] → assign_prompts_scene_list prompts idx l = Except.error "IndexError" := by
  intro l
  induction l with
  | nil => intro idx h hne; exact absurd rfl hne
  | cons s rest ih =>
    intro idx h hne
    by_cases hidx : idx < prompts.length
    · cases rest with
      | nil => simp only [List.length_cons, List.length_nil] at h; omega
      | cons r rrest =>
        rw [assign_prompts_scene_list, List.getElem?_eq_getElem hidx,
          ih (idx + 1) (by simp at h ⊢; omega) (by simp)]
    · rw [assign_prompts_scene_list, List.getElem?_eq_none (by omega)]

/-- Assigning prompts across all keyframes succeeds when the prompt list
covers the total scene count, assigning the prompts positionally over the
flattened scene order and preserving the per-keyframe scene counts. -/
theorem assign_prompts_go_ok (prompts : List String) :
    ∀ (L : List KeyframesWithDialog) (idx : Nat),
      idx + (all_story_scenes L).length ≤ prompts.length →
      ∃ out, assign_prompts_go prompts idx L =
          Except.ok (out, idx + (all_story_scenes L).length) ∧
        (all_story_scenes out).map KeyframeScene.leonardo_prompt =
          ((prompts.drop idx).take (all_story_scenes L).length).map Option.some ∧
        out.map (fun ks => ks.scenes.length) = L.map (fun ks => ks.scenes.length) := by
  intro L
  induction L with
  | nil =>
    intro idx h
    exact ⟨[], by simp [assign_prompts_go, all_story_scenes], by simp [all_story_scenes], rfl⟩
  | cons ks rest ih =>
    intro idx h
    have hflat : (all_story_scenes (ks :: rest)).length =
        ks.scenes.length + (all_story_scenes rest).length := by
      simp [all_story_scenes]
    obtain ⟨ss, hss, hssmap, hsslen⟩ :=
      assign_prompts_scene_list_ok prompts ks.scenes idx (by omega)
    obtain ⟨out, hout, houtmap, houtlen⟩ := ih (idx + ks.scenes.length) (by omega)
    refine ⟨⟨ss⟩ :: out, ?_, ?_, ?_⟩
    · rw [assign_prompts_go, hss]
      simp only [hout]
      have harith : idx + ks.scenes.length + (all_story_scenes rest).length =
          idx + (all_story_scenes (ks :: rest)).length := by
        rw [hflat]; omega
      rw [harith]
    · have hsplit : (prompts.drop idx).take (all_story_scenes (ks :: rest)).length =
          (prompts.drop idx).take ks.scenes.length ++
            (prompts.drop (idx + ks.scenes.length)).take (all_story_scenes rest).length := by
        rw [hflat, List.take_add, List.drop_drop]
      rw [show all_story_scenes (⟨ss⟩ :: out) = ss ++ all_story_scenes out from rfl,
        List.map_append, hssmap, houtmap, hsplit, List.map_append]
    · simp [houtlen, hsslen]

/-- Assigning prompts across keyframes holding at least one scene in total
raises IndexError when the prompt list is shorter than the span. -/
theorem assign_prompts_go_err (prompts : List String) :
    ∀ (L : List KeyframesWithDialog) (idx : Nat),
      prompts.length < idx + (all_story_scenes L).length →
      all_story_scenes L ≠ [] →
      assign_prompts_go prompts idx L = Except.error "IndexError" := by
  intro L
  induction L with
  | nil => intro idx h hne; exact absurd rfl hne
  | cons ks rest ih =>
    intro idx h hne
    have hflat : all_story_scenes (ks :: rest) = ks.scenes ++ all_story_scenes rest := rfl
    cases hscenes : ks.scenes with
    | nil =>
      have hok : assign_prompts_scene_list prompts idx ks.scenes = Except.ok ([], idx) := by
        rw [hscenes]; rfl
      rw [assign_prompts_go, hok]
      simp only [ih idx (by rw [hflat, hscenes] at h; simpa using h)
        (by rw [hflat, hscenes] at hne; simpa using hne)]
    | cons s srest =>
      by_cases hbound : idx + ks.scenes.length ≤ prompts.length
      · obtain ⟨ss, hss, -, -⟩ := assign_prompts_scene_list_ok prompts ks.scenes idx hbound
        have hrestlen : prompts.length < idx + ks.scenes.length + (all_story_scenes rest).length := by
          rw [hflat] at h
          simp only [List.length_append] at h
          omega
        have hrestne : all_story_scenes rest ≠ [] := by
          intro heq
          rw [heq] at hrestlen
          simp at hrestlen
          omega
        rw [assign_prompts_go, hss]
        simp only [ih (idx + ks.scenes.length) hrestlen hrestne]
      · rw [assign_prompts_go,
          assign_prompts_scene_list_err prompts ks.scenes idx (by omega)
            (by rw [hscenes]; simp)]

/-- Claim C10: the leonardo_prompt assignment indexes the optimizer output
positionally over all scenes: when the optimizer returned fewer prompts
than the total scene count the assignment raises IndexError (a run-level
failure), and when it returned at least as many, every scene receives the
prompt at its flat position, surplus prompts are ignored, and the
keyframe/scene structure is unchanged. -/
theorem assign_prompts_positional (all_scenes : List KeyframesWithDialog)
    (prompts : List String) :
    (prompts.length < total_scene_count all_scenes →
      assign_leonardo_prompts all_scenes prompts = Except.error "IndexError") ∧
    (total_scene_count all_scenes ≤ prompts.length →
      ∃ out, assign_leonardo_prompts all_scenes prompts = Except.ok out ∧
        out.map (fun ks => ks.scenes.length) = all_scenes.map (fun ks => ks.scenes.length) ∧
        (all_story_scenes out).map KeyframeScene.leonardo_prompt =
          (prompts.take (total_scene_count all_scenes)).map Option.some) := by
  constructor
  · intro h
    have hne : all_story_scenes all_scenes ≠ [] := by
      intro heq
      rw [total_scene_count, heq] at h
      simp at h
    rw [assign_leonardo_prompts,
      assign_prompts_go_err prompts all_scenes 0 (by simpa [total_scene_count] using h) hne]
    rfl
  · intro h
    obtain ⟨out, hout, hmap, hcounts⟩ :=
      assign_prompts_go_ok prompts all_scenes 0 (by simpa [total_scene_count] using h)
    refine ⟨out, ?_, hcounts, ?_⟩
    · rw [assign_leonardo_prompts, hout]
      rfl
    · rw [hmap, List.drop_zero, total_scene_count]

/-- Witness for assign_prompts_positional: two one-scene keyframes with a
single prompt raise IndexError, and with three prompts the assignment
succeeds. -/
theorem assign_prompts_positional_witness :
    assign_leonardo_prompts [⟨[test_scene "A"]⟩, ⟨[test_scene "B"]⟩] ["p1"] =
      Except.error "IndexError" ∧
    exceptIsOk (assign_leonardo_prompts [⟨[test_scene "A"]⟩, ⟨[test_scene "B"]⟩]
      ["p1", "p2", "p3"]) = true := by
  constructor
  · exact (assign_prompts_positional _ _).1 (by decide)
  · obtain ⟨out, heq, -, -⟩ := (assign_prompts_positional
      [⟨[test_scene "A"]⟩, ⟨[test_scene "B"]⟩] ["p1", "p2", "p3"]).2 (by decide)
    rw [heq]
    rfl

end Hypeloop
